import Mathlib

/-!
Shallow embedding of the run-orchestration and completion-detection core of
`scripts/run_gem5.py` (riscv-gem5 repository), together with theorems that
settle the specification claims about it.

Conventions of the embedding:
* Python strings are modelled as `List Char`; the character-class predicates
  (`str.isalnum`, `str.split()` whitespace, `str.splitlines()` line breaks)
  are modelled over the ASCII range that the orchestrator's marker strings
  and log texts use.
* The filesystem is an explicit parameter: `Path(p).exists()` becomes an
  abstract predicate `fs : String → Bool`.
* The ANSI stripper walks the text one character at a time with a skip
  counter for the characters of a matched escape sequence, which keeps the
  recursion structural.
-/

namespace RunGem5

/-- Whitespace for Python `str.split()` with no arguments (ASCII range). -/
def isPySpace (c : Char) : Bool :=
  c = ' ' || c = '\t' || c = '\n' || c = '\r' || c = '\x0b' || c = '\x0c'

/-- Parameter byte of an ANSI CSI sequence: the range 0x30 to 0x3F of the
regex `ANSI_ESCAPE_RE` in `run_gem5.py` (ESC, bracket, parameter bytes,
intermediate bytes, one final byte). -/
def isCsiParam (c : Char) : Bool := '0' ≤ c && c ≤ '?'

/-- Intermediate byte of an ANSI CSI sequence: the range 0x20 to 0x2F. -/
def isCsiInter (c : Char) : Bool := ' ' ≤ c && c ≤ '/'

/-- Final byte of an ANSI CSI sequence: the `[@-~]` range. -/
def isCsiFinal (c : Char) : Bool := '@' ≤ c && c ≤ '~'

/-- Length of the CSI escape tail that follows an `ESC`, when the regex
`ANSI_ESCAPE_RE` matches there: one bracket, the parameter bytes, the
intermediate bytes and one final byte.  The three byte classes are
pairwise disjoint, so the regex's greedy matching needs no backtracking:
this count is exactly what `re` consumes.  `none` when the pattern does
not match at this position. -/
def csiLen (rest : List Char) : Option Nat :=
  match rest with
  | '[' :: rest2 =>
    let p := (rest2.takeWhile isCsiParam).length
    let rest3 := rest2.dropWhile isCsiParam
    let i := (rest3.takeWhile isCsiInter).length
    match rest3.dropWhile isCsiInter with
    | d :: _ => if isCsiFinal d then some (1 + p + i + 1) else none
    | [] => none
  | _ => none

/-- Worker for `ANSI_ESCAPE_RE.sub("", txt)`: while the skip counter is
positive the character belongs to a matched escape and is dropped; at zero,
an `ESC` starting a full CSI match drops the whole escape (by loading the
skip counter), any other character is kept, and scanning resumes at the
next character, exactly as `re.sub` does. -/
def stripAnsiGo : Nat → List Char → List Char
  | _, [] => []
  | skip + 1, _ :: rest => stripAnsiGo skip rest
  | 0, c :: rest =>
    if c = '\x1B' then
      match csiLen rest with
      | some k => stripAnsiGo k rest
      | none => c :: stripAnsiGo 0 rest
    else c :: stripAnsiGo 0 rest

/-- Model of `ANSI_ESCAPE_RE.sub("", txt)` from `run_gem5.py`. -/
def stripAnsi (l : List Char) : List Char := stripAnsiGo 0 l

/-- Model of `clean_log_text`: strip ANSI escapes, then `replace("\r", "\n")` and
`replace("\x00", " ")`. -/
def clean_log_text (l : List Char) : List Char :=
  (stripAnsi l).map fun c => if c = '\r' then '\n' else if c = '\x00' then ' ' else c

/-- Accumulator worker for Python `str.split()` (split on whitespace runs,
no empty tokens). -/
def wsTokensGo (cur : List Char) : List Char → List (List Char)
  | [] => if cur.isEmpty then [] else [cur.reverse]
  | c :: rest =>
    if isPySpace c then
      if cur.isEmpty then wsTokensGo [] rest else cur.reverse :: wsTokensGo [] rest
    else wsTokensGo (c :: cur) rest

/-- Python `txt.split()`: whitespace-separated tokens, leading/trailing and
repeated separators discarded. -/
def wsTokens (l : List Char) : List (List Char) := wsTokensGo [] l

/-- Python `" ".join(txt.split())`: collapse every whitespace run to a single
space. -/
def wsCollapse (l : List Char) : List Char := List.intercalate [' '] (wsTokens l)

/-- Model of `normalize_log_text` from `run_gem5.py`. -/
def normalize_log_text (l : List Char) : List Char := wsCollapse (clean_log_text l)

/-- Model of `to_alnum_upper`: uppercase, then keep only alphanumeric characters
(ASCII behaviour of `str.upper`/`str.isalnum`). -/
def to_alnum_upper (l : List Char) : List Char :=
  (l.map Char.toUpper).filter Char.isAlphanum

/-- Tests whether `needle` is a leading segment of `hay` (Python `str.startswith`, used to
express substring containment). -/
def leadMatch : List Char → List Char → Bool
  | [], _ => true
  | _ :: _, [] => false
  | a :: as, b :: bs => a = b && leadMatch as bs

/-- Python substring containment `needle in hay`. -/
def strContains (hay needle : List Char) : Bool :=
  if leadMatch needle hay then true
  else
    match hay with
    | [] => false
    | _ :: t => strContains t needle

/-- Index-advancing scan of `is_subsequence` from `run_gem5.py`. -/
def subseqFrom : List Char → List Char → Bool
  | [], _ => true
  | _ :: _, [] => false
  | n :: ns, h :: hs => if h = n then subseqFrom ns hs else subseqFrom (n :: ns) hs

/-- Model of `is_subsequence` from `run_gem5.py`: empty needles are rejected, otherwise
the needle's characters must appear in order inside the haystack. -/
def is_subsequence (needle haystack : List Char) : Bool :=
  if needle.isEmpty then false else subseqFrom needle haystack

/-- Line-break characters of Python `str.splitlines()` (ASCII/Latin-1 plus
the two Unicode separators). -/
def isPyLineBreak (c : Char) : Bool :=
  c = '\n' || c = '\r' || c = '\x0b' || c = '\x0c' ||
  c = '\x1c' || c = '\x1d' || c = '\x1e' || c = '\x85' ||
  c = ' ' || c = ' '

/-- Accumulator worker for Python `str.splitlines()`; a `"\r\n"` pair counts
as a single break, and a trailing break opens no empty final line. -/
def splitlinesGo (cur : List Char) : List Char → List (List Char)
  | [] => if cur.isEmpty then [] else [cur.reverse]
  | '\r' :: '\n' :: rest => cur.reverse :: splitlinesGo [] rest
  | c :: rest =>
    if isPyLineBreak c then cur.reverse :: splitlinesGo [] rest
    else splitlinesGo (c :: cur) rest

/-- Python `txt.splitlines()`. -/
def pySplitlines (l : List Char) : List (List Char) := splitlinesGo [] l

/-- Model of `marker_present` from `run_gem5.py`: tier 1 is literal containment,
tier 2 is whitespace-normalized containment guarded by a non-empty
normalized marker, tier 3 (only with `allow_interleaved`) projects marker
and haystack to uppercase alphanumerics and accepts substring or
subsequence hits per cleaned line, then against the whole normalized
haystack. -/
def marker_present (text marker : List Char) (allow_interleaved : Bool) : Bool :=
  if strContains text marker then true
  else
    let normalized := normalize_log_text text
    let norm_marker := wsCollapse marker
    if !norm_marker.isEmpty && strContains normalized norm_marker then true
    else if !allow_interleaved then false
    else
      let needle := to_alnum_upper norm_marker
      if needle.isEmpty then false
      else
        let cleaned := clean_log_text text
        if (pySplitlines cleaned).any (fun line =>
            let hay := to_alnum_upper line
            strContains hay needle || is_subsequence needle hay) then true
        else
          let hay_all := to_alnum_upper normalized
          strContains hay_all needle || is_subsequence needle hay_all

/-! ## Artifact resolution -/

/-- Model of `find_first_existing` from `run_gem5.py`: the first candidate that is
truthy (non-empty) and exists; the empty string when none is.  `fs`
abstracts `Path(c).exists()`. -/
def find_first_existing (fs : String → Bool) : List String → String
  | [] => ""
  | c :: rest => if c ≠ "" ∧ fs c then c else find_first_existing fs rest

/-- Worker splitting a character list at every slash. -/
def splitSlashGo (cur : List Char) : List Char → List (List Char)
  | [] => [cur.reverse]
  | c :: rest =>
    if c = '/' then cur.reverse :: splitSlashGo [] rest
    else splitSlashGo (c :: cur) rest

/-- The slash-separated components of a normalized relative path, as
`pathlib.Path` exposes them. -/
def splitSlash (p : String) : List String :=
  (splitSlashGo [] p.toList).map fun l => String.mk l

/-- Join path components back with slashes. -/
def joinSlash : List String → String
  | [] => ""
  | [s] => s
  | s :: rest => s ++ "/" ++ joinSlash rest

/-- Python `Path(p).name` for a normalized relative path: the last
slash-separated component. -/
def pathName (p : String) : String := (splitSlash p).getLastD ""

/-- Python `str(Path(p).parents[3] / "vmlinux")` for a normalized relative `p`
with at least four components: drop the last four components and append
`vmlinux` (`Path(".") / "vmlinux"` renders as plain `vmlinux`). -/
def parents3Vmlinux (p : String) : String :=
  let comps := splitSlash p
  let kept := comps.take (comps.length - 4)
  if kept.isEmpty then "vmlinux" else joinSlash kept ++ "/vmlinux"

/-- Model of `auto_kernel_elf` from `run_gem5.py`.  `globVmlinux` stands for the
reverse-sorted results of the `sources/buildroot/output/build` glob, a
filesystem enumeration taken as a parameter.  The hint is returned only
when it exists and is not named `Image`; otherwise the fallback candidate
list is scanned in order. -/
def auto_kernel_elf (fs : String → Bool) (globVmlinux : List String)
    (kernel_hint : String) : String :=
  if fs kernel_hint ∧ pathName kernel_hint ≠ "Image" then kernel_hint
  else
    let candidates :=
      ["build/linux/vmlinux"]
        ++ (if pathName kernel_hint = "Image" ∧ (splitSlash kernel_hint).length ≥ 4
            then [parents3Vmlinux kernel_hint] else [])
        ++ globVmlinux
    find_first_existing fs candidates

/-! ## Statistics counters -/

/-- A stats line matches `key` when it has at least two whitespace-separated
columns and the first equals `key` exactly. -/
def statLineMatches (key line : List Char) : Bool :=
  match wsTokens line with
  | c0 :: _ :: _ => c0 == key
  | _ => false

/-- Outcome of Python `int(float(col))`, the numeric conversion of
`read_stats_counter`.  A finite float truncates to an integer (`val`); a
string that is not a float literal, or NaN, raises `ValueError`
(`valueError`) — which the source catches; a string parsing to an infinity
(such as `inf` or `1e999`) raises `OverflowError` (`overflowError`) —
which the source's `except ValueError` clause does NOT catch.  The
conversion itself is floating-point and is abstracted as an oracle with
this three-valued outcome. -/
inductive PyIntFloat
  | val (v : Int)
  | valueError
  | overflowError
deriving DecidableEq, Repr

/-- The line loop of `read_stats_counter`: the first matching line decides
the result.  On that line, `int(float(columns[1]))` returns the value or,
under `ValueError`, the `-1` sentinel; an `OverflowError` is uncaught and
propagates out of the function, modelled as `Except.error ()`. -/
def statScan (parse : List Char → PyIntFloat) (key : List Char) :
    List (List Char) → Except Unit Int
  | [] => Except.ok (-1)
  | line :: rest =>
    match wsTokens line with
    | c0 :: c1 :: _ =>
      if c0 == key then
        match parse c1 with
        | PyIntFloat.val v => Except.ok v
        | PyIntFloat.valueError => Except.ok (-1)
        | PyIntFloat.overflowError => Except.error ()
      else statScan parse key rest
    | _ => statScan parse key rest

/-- Model of `read_stats_counter` from `run_gem5.py`; `none` models a missing
`stats_path`, and `Except.error ()` the uncaught `OverflowError` raised by
`int(float(col))` on an infinite value. -/
def read_stats_counter (parse : List Char → PyIntFloat)
    (file : Option (List Char)) (key : List Char) : Except Unit Int :=
  match file with
  | none => Except.ok (-1)
  | some content => statScan parse key (pySplitlines content)

/-! ## Process supervision -/

/-- The result dictionaries returned by the supervisor functions; fields a
branch's dictionary omits are `none`. -/
structure RunResult where
  returncode : Int
  timeout : Bool
  terminated_on_marker : Option Bool
  raw_returncode : Option Int
deriving DecidableEq, Repr

/-- The child process's state when a supervisor branch returns. -/
inductive ChildState
  | running
  | exitedSelf
  | stopped
deriving DecidableEq, Repr

/-- Model of `run_one`: `subprocess.run` with a timeout; a `none` outcome models
`TimeoutExpired` (the child is killed and 124 reported). -/
def run_one (outcome : Option Int) : RunResult :=
  match outcome with
  | some rc => ⟨rc, false, none, none⟩
  | none => ⟨124, true, none, none⟩

/-- One iteration's observations in the polling loop of
`run_one_until_markers`: whether the marker log exists and its contents,
the `proc.poll()` result (`none` while the child runs), the monotonic
time, and the code `proc.wait` reports if the supervisor terminates a
still-running child. -/
structure PollObs where
  fileExists : Bool
  text : List Char
  childExit : Option Int
  now : Nat
  termCode : Int

/-- Value of `proc.returncode` after the terminate/grace-wait/kill ladder: the
child's own exit status if it had already exited, else the termination
code. -/
def PollObs.postTermRc (o : PollObs) : Int := o.childExit.getD o.termCode

/-- The marker gate of one `run_one_until_markers` iteration: the marker
log exists and every required marker is present (non-interleaved). -/
def markersHit (markers : List (List Char)) (o : PollObs) : Bool :=
  o.fileExists && markers.all fun m => marker_present o.text m false

/-- The polling loop of `run_one_until_markers`, one list entry per
iteration.  Per iteration, in source order: marker gate, then
`proc.poll()`, then the deadline; `none` means the trace ended before any
branch fired (the real loop always reaches the deadline). -/
def run_one_until_markers (markers : List (List Char)) (deadline : Nat) :
    List PollObs → Option (RunResult × ChildState)
  | [] => none
  | o :: rest =>
    if markersHit markers o then
      some (⟨0, false, some true, some o.postTermRc⟩, ChildState.stopped)
    else
      match o.childExit with
      | some rc => some (⟨rc, false, none, none⟩, ChildState.exitedSelf)
      | none =>
        if deadline ≤ o.now then
          some (⟨124, true, some false, some o.postTermRc⟩, ChildState.stopped)
        else run_one_until_markers markers deadline rest

/-- One iteration's observations for `run_one_until_markers_multi`:
the marker logs' contents (`none` for a missing file) replace the single
log of `PollObs`. -/
structure MultiObs where
  files : List (Option (List Char))
  childExit : Option Int
  now : Nat
  termCode : Int

/-- Value of `proc.returncode` after the terminate/grace-wait/kill ladder. -/
def MultiObs.postTermRc (o : MultiObs) : Int := o.childExit.getD o.termCode

/-- The merged text built each iteration: every existing marker log's
contents followed by a newline, concatenated in path order. -/
def MultiObs.merged (o : MultiObs) : List Char :=
  o.files.foldl (fun acc f => match f with | some t => acc ++ t ++ ['\n'] | none => acc) []

/-- The marker gate of `run_one_until_markers_multi`: the merged text is
non-empty and every required marker is present (non-interleaved). -/
def multiMarkersHit (markers : List (List Char)) (o : MultiObs) : Bool :=
  !o.merged.isEmpty && markers.all fun m => marker_present o.merged m false

/-- The polling loop of `run_one_until_markers_multi`. -/
def run_one_until_markers_multi (markers : List (List Char)) (deadline : Nat) :
    List MultiObs → Option (RunResult × ChildState)
  | [] => none
  | o :: rest =>
    if multiMarkersHit markers o then
      some (⟨0, false, some true, some o.postTermRc⟩, ChildState.stopped)
    else
      match o.childExit with
      | some rc => some (⟨rc, false, none, none⟩, ChildState.exitedSelf)
      | none =>
        if deadline ≤ o.now then
          some (⟨124, true, some false, some o.postTermRc⟩, ChildState.stopped)
        else run_one_until_markers_multi markers deadline rest

/-! ## Validation and exit codes -/

/-- Python `all(checks.values())`: the overall verdict over a check table. -/
def all_passed (checks : List (String × Bool)) : Bool := checks.all fun kv => kv.2

/-- The marker booleans the riscv64_smp validation branch consults. -/
structure Rv64Markers where
  opensbi : Bool
  linuxVersion : Bool
  loadedBootloader : Bool
  loadedKernel : Bool
  runInit : Bool
  shellReady : Bool
  shellPrompt : Bool
  kernelPanic : Bool
  fatal : Bool

/-- Check `required_markers_ok` of the riscv64_smp branch: bootloader and kernel
always; `/init` under the conf runtime; the shell markers additionally in
simple mode. -/
def rv64RequiredMarkersOk (m : Rv64Markers) (useConfRuntime modeSimple : Bool) : Bool :=
  let base := m.loadedBootloader && m.loadedKernel
  if useConfRuntime then
    let withInit := base && m.runInit
    if modeSimple then withInit && m.shellReady && m.shellPrompt else withInit
  else base

/-- The check table built by the riscv64_smp branch of `main`. -/
def rv64_checks (rc : Int) (m : Rv64Markers)
    (useConfRuntime modeSimple uartLogPresent : Bool) : List (String × Bool) :=
  [("returncode_ok", rc == 0),
   ("required_markers_ok", rv64RequiredMarkersOk m useConfRuntime modeSimple),
   ("terminal_markers_ok", m.opensbi || m.linuxVersion),
   ("uart_log_present", uartLogPresent),
   ("panic_free", !m.kernelPanic && !m.fatal),
   ("shell_prompt_ok", !useConfRuntime || !modeSimple || (m.shellReady && m.shellPrompt))]

/-- The marker booleans the riscv_hybrid validation branch consults. -/
structure HybridMarkers where
  ampCpu0Done : Bool
  ampCpu1Done : Bool
  smpDone : Bool
  roleSync : Bool
  opensbi : Bool
  linuxVersion : Bool
  loadedBootloader : Bool
  loadedKernel : Bool
  kernelPanic : Bool
  fatal : Bool
  panicWord : Bool

/-- All four rv32 workload markers of the hybrid target. -/
def hybridRv32Ok (m : HybridMarkers) : Bool :=
  m.ampCpu0Done && m.ampCpu1Done && m.smpDone && m.roleSync

/-- The check table built by the riscv_hybrid branch of `main`. -/
def hybrid_checks (numCommands : Nat) (rc : Int) (m : HybridMarkers) :
    List (String × Bool) :=
  [("single_command", numCommands == 1),
   ("returncode_ok", rc == 0),
   ("rv32_markers_ok", hybridRv32Ok m),
   ("rv64_boot_ok", m.opensbi && m.linuxVersion),
   ("required_markers_ok",
     hybridRv32Ok m && m.opensbi && m.linuxVersion && m.loadedBootloader && m.loadedKernel),
   ("panic_free", !m.kernelPanic && !m.panicWord && !m.fatal)]

/-- The check table built by the riscv32_mixed branch of `main`;
`requiredOk` and `terminalOk` are the aggregated workload-marker booleans
computed just above the table, `panicWord` the bare `panic` marker. -/
def mixed_checks (numCommands : Nat) (rc : Int)
    (requiredOk terminalOk kernelPanic panicWord : Bool) : List (String × Bool) :=
  [("single_command", numCommands == 1),
   ("returncode_ok", rc == 0),
   ("required_markers_ok", requiredOk),
   ("terminal_markers_ok", terminalOk),
   ("panic_free", !kernelPanic && !panicWord)]

/-- Exit path of the riscv64_smp branch of `main`: dry-run 0, missing
prerequisites 2, otherwise 0 or 1 by the verdict over the check table. -/
def rv64_exit (dryRun : Bool) (missing : List String) (rc : Int) (m : Rv64Markers)
    (useConfRuntime modeSimple uartLogPresent : Bool) : Int :=
  if dryRun then 0
  else if missing ≠ [] then 2
  else if all_passed (rv64_checks rc m useConfRuntime modeSimple uartLogPresent) then 0 else 1

/-- Exit path of the riscv_hybrid branch of `main`; `commands` holds the
single constructed argv list. -/
def hybrid_exit (dryRun : Bool) (missing : List String) (rc : Int) (m : HybridMarkers) : Int :=
  if dryRun then 0
  else if missing ≠ [] then 2
  else if all_passed (hybrid_checks 1 rc m) then 0 else 1

/-- Exit path of the riscv32_mixed branch of `main`. -/
def mixed_exit (dryRun : Bool) (missing : List String) (rc : Int)
    (requiredOk terminalOk kernelPanic panicWord : Bool) : Int :=
  if dryRun then 0
  else if missing ≠ [] then 2
  else if all_passed (mixed_checks 1 rc requiredOk terminalOk kernelPanic panicWord) then 0 else 1

/-- Exit path of the riscv32_simple branch of `main`: no check table, the
simulator's return code (via `run_one`, hence 124 on timeout) is returned
directly. -/
def rv32_simple_exit (dryRun : Bool) (missing : List String) (outcome : Option Int) : Int :=
  if dryRun then 0
  else if missing ≠ [] then 2
  else (run_one outcome).returncode

/-! ## Marker-matcher theorems -/

/-- The empty needle is a substring of every haystack (Python `"" in s`). -/
theorem strContains_nil (hay : List Char) : strContains hay [] = true := by
  cases hay <;> simp [strContains, leadMatch]

/-- Closed form of the non-interleaved matcher: literal containment, or
normalized containment guarded by a non-empty normalized marker. -/
theorem marker_present_false_eq (text marker : List Char) :
    marker_present text marker false
      = (strContains text marker
          || (!(wsCollapse marker).isEmpty
              && strContains (normalize_log_text text) (wsCollapse marker))) := by
  by_cases h1 : strContains text marker = true
  · simp [marker_present, h1]
  · have h1f : strContains text marker = false := by
      simpa using h1
    by_cases h2 : (!(wsCollapse marker).isEmpty
        && strContains (normalize_log_text text) (wsCollapse marker)) = true
    · simp [marker_present, h1f, h2]
    · have h2f : (!(wsCollapse marker).isEmpty
          && strContains (normalize_log_text text) (wsCollapse marker)) = false := by
        simpa using h2
      simp [marker_present, h1f, h2f]

/-- Tiers 1 and 2 are checked identically with interleaving enabled, so a
non-interleaved hit is also an interleaved hit. -/
theorem marker_present_mono (text marker : List Char)
    (h : marker_present text marker false = true) :
    marker_present text marker true = true := by
  rw [marker_present_false_eq] at h
  by_cases h1 : strContains text marker = true
  · simp [marker_present, h1]
  · have h1f : strContains text marker = false := by
      simpa using h1
    rw [h1f] at h
    simp only [Bool.false_or] at h
    simp [marker_present, h1f, h]

/-- C9: `marker_present` returns `true` for the entirely empty marker on
every text and either interleaving flag, because the tier-1 substring test
treats the empty marker as contained in every haystack; the tier-3 guard
against an empty projected marker is never reached. -/
theorem C9_empty_marker_matches (text : List Char) (allow_interleaved : Bool) :
    marker_present text [] allow_interleaved = true := by
  simp [marker_present, strContains_nil]

/-- The claim's reading of the first two matching tiers: literal containment
or whitespace-normalized containment, without the source's guard that the
normalized marker be non-empty. -/
def tier12Claimed (text marker : List Char) : Bool :=
  strContains text marker || strContains (normalize_log_text text) (wsCollapse marker)

/-- C5 counterexample: for the whitespace-only marker `" "` and text `"ab"`,
the claimed characterization is `true` (the normalized marker is empty and
an empty string is a substring of everything), but `marker_present` returns
`false` because tier 2 requires a non-empty normalized marker. -/
theorem C5_counterexample :
    marker_present "ab".toList " ".toList false = false
    ∧ tier12Claimed "ab".toList " ".toList = true :=
  ⟨by decide, by decide⟩

/-- C5 (amended): `marker_present t m false` is `true` iff `m` is a literal
substring of `t`, or the whitespace-normalized form of `m` is non-empty and
is a substring of the whitespace-normalized (ANSI-stripped, CR/NUL
converted, whitespace-collapsed) form of `t`. -/
theorem C5_tier12_characterization (text marker : List Char) :
    marker_present text marker false
      = (strContains text marker
          || (!(wsCollapse marker).isEmpty
              && strContains (normalize_log_text text) (wsCollapse marker))) :=
  marker_present_false_eq text marker

/-- C6 counterexample: for the marker `"Kernel panic"` and the haystack in
which the marker appears ANSI-coloured and split by a CR/LF pair inside the
word (`ESC[31m Kernel pan CRLF ic ESC[0m`), `marker_present` with
`allow_interleaved = false` returns `false`, not `true`: normalization turns
the CR/LF into a separator, so the normalized haystack reads
`"Kernel pan ic"` and the tier-2 substring test fails. -/
theorem C6_counterexample :
    marker_present "\x1B[31mKernel pan\r\nic\x1B[0m".toList "Kernel panic".toList false
      = false := by
  decide

/-- C6 (amended): on the ANSI-coloured, CRLF-split haystack the marker
`"Kernel panic"` is not found by tiers 1 and 2 (`allow_interleaved = false`
yields `false`), and is found only by the tier-3 alphanumeric projection
when `allow_interleaved = true`. -/
theorem C6_ansi_crlf_split :
    marker_present "\x1B[31mKernel pan\r\nic\x1B[0m".toList "Kernel panic".toList false
      = false
    ∧ marker_present "\x1B[31mKernel pan\r\nic\x1B[0m".toList "Kernel panic".toList true
      = true :=
  ⟨by decide, by decide⟩

/-- C7: interleaved matching is strictly more permissive than
non-interleaved matching: every non-interleaved hit is an interleaved hit,
and the `ROLE_SYNC` readiness marker split across two lines is matched only
with `allow_interleaved = true` (tier-3 projection over the whole haystack)
and not with `allow_interleaved = false`. -/
theorem C7_interleaved_strictly_more_permissive :
    (∀ text marker : List Char,
        marker_present text marker false = true → marker_present text marker true = true)
    ∧ marker_present "RISCV32 MIXED ROLE_\nSYNC mask=0x7 status=READY".toList
        "RISCV32 MIXED ROLE_SYNC mask=0x7 status=READY".toList true = true
    ∧ marker_present "RISCV32 MIXED ROLE_\nSYNC mask=0x7 status=READY".toList
        "RISCV32 MIXED ROLE_SYNC mask=0x7 status=READY".toList false = false :=
  ⟨marker_present_mono, by decide, by decide⟩

/-- Witness for C7: the monotonicity direction applied at a concrete
marker contained literally in the text. -/
theorem C7_witness :
    marker_present "hello world".toList "hello".toList true = true :=
  C7_interleaved_strictly_more_permissive.1 _ _ (by decide)

/-! ## Process-supervision theorems -/

/-- The single-log polling loop never returns with the child running. -/
theorem run_one_until_markers_stops_child (markers : List (List Char)) (deadline : Nat) :
    ∀ trace r cs, run_one_until_markers markers deadline trace = some (r, cs) →
      cs ≠ ChildState.running := by
  intro trace
  induction trace with
  | nil => intro r cs h; simp [run_one_until_markers] at h
  | cons o rest ih =>
    intro r cs h
    unfold run_one_until_markers at h
    split at h
    · simp only [Option.some.injEq, Prod.mk.injEq] at h
      rw [← h.2]
      simp
    · split at h
      · simp only [Option.some.injEq, Prod.mk.injEq] at h
        rw [← h.2]
        simp
      · split at h
        · simp only [Option.some.injEq, Prod.mk.injEq] at h
          rw [← h.2]
          simp
        · exact ih r cs h

/-- The multi-log polling loop never returns with the child running. -/
theorem run_one_until_markers_multi_stops_child (markers : List (List Char)) (deadline : Nat) :
    ∀ trace r cs, run_one_until_markers_multi markers deadline trace = some (r, cs) →
      cs ≠ ChildState.running := by
  intro trace
  induction trace with
  | nil => intro r cs h; simp [run_one_until_markers_multi] at h
  | cons o rest ih =>
    intro r cs h
    unfold run_one_until_markers_multi at h
    split at h
    · simp only [Option.some.injEq, Prod.mk.injEq] at h
      rw [← h.2]
      simp
    · split at h
      · simp only [Option.some.injEq, Prod.mk.injEq] at h
        rw [← h.2]
        simp
      · split at h
        · simp only [Option.some.injEq, Prod.mk.injEq] at h
          rw [← h.2]
          simp
        · exact ih r cs h

/-- C2: in a marker-gated run, at the first deciding iteration: if all
required markers are present in the marker log the result is returncode 0
with terminated_on_marker and the pre-termination code in raw_returncode;
if instead the child has exited, its real exit code is reported; if instead
the deadline has passed, returncode 124 with timeout is reported; and no
branch of either loop returns with the child still running.  The same holds
for the multi-log variant. -/
theorem C2_marker_gated_supervision (markers : List (List Char)) (deadline : Nat)
    (o : PollObs) (rest : List PollObs) (om : MultiObs) (mrest : List MultiObs) :
    (markersHit markers o = true →
        run_one_until_markers markers deadline (o :: rest)
          = some (⟨0, false, some true, some o.postTermRc⟩, ChildState.stopped))
    ∧ (∀ rc : Int, markersHit markers o = false → o.childExit = some rc →
        run_one_until_markers markers deadline (o :: rest)
          = some (⟨rc, false, none, none⟩, ChildState.exitedSelf))
    ∧ (markersHit markers o = false → o.childExit = none → deadline ≤ o.now →
        run_one_until_markers markers deadline (o :: rest)
          = some (⟨124, true, some false, some o.postTermRc⟩, ChildState.stopped))
    ∧ (∀ trace r cs, run_one_until_markers markers deadline trace = some (r, cs) →
        cs ≠ ChildState.running)
    ∧ (multiMarkersHit markers om = true →
        run_one_until_markers_multi markers deadline (om :: mrest)
          = some (⟨0, false, some true, some om.postTermRc⟩, ChildState.stopped))
    ∧ (∀ rc : Int, multiMarkersHit markers om = false → om.childExit = some rc →
        run_one_until_markers_multi markers deadline (om :: mrest)
          = some (⟨rc, false, none, none⟩, ChildState.exitedSelf))
    ∧ (multiMarkersHit markers om = false → om.childExit = none → deadline ≤ om.now →
        run_one_until_markers_multi markers deadline (om :: mrest)
          = some (⟨124, true, some false, some om.postTermRc⟩, ChildState.stopped))
    ∧ (∀ trace r cs, run_one_until_markers_multi markers deadline trace = some (r, cs) →
        cs ≠ ChildState.running) := by
  refine ⟨?_, ?_, ?_, run_one_until_markers_stops_child markers deadline,
          ?_, ?_, ?_, run_one_until_markers_multi_stops_child markers deadline⟩
  · intro h
    simp [run_one_until_markers, h]
  · intro rc h1 h2
    simp [run_one_until_markers, h1, h2]
  · intro h1 h2 h3
    simp [run_one_until_markers, h1, h2, h3]
  · intro h
    simp [run_one_until_markers_multi, h]
  · intro rc h1 h2
    simp [run_one_until_markers_multi, h1, h2]
  · intro h1 h2 h3
    simp [run_one_until_markers_multi, h1, h2, h3]

/-- Witness for C2: the three single-log branches and the multi-log marker
branch, at concrete traces. -/
theorem C2_witness :
    run_one_until_markers ["INITRAMFS_SHELL_READY".toList, "initramfs#".toList] 100
        [⟨true, "INITRAMFS_SHELL_READY\ninitramfs# ".toList, none, 0, -15⟩]
      = some (⟨0, false, some true, some (-15)⟩, ChildState.stopped)
    ∧ run_one_until_markers ["DONE".toList] 100 [⟨true, "boot".toList, some 7, 0, -15⟩]
      = some (⟨7, false, none, none⟩, ChildState.exitedSelf)
    ∧ run_one_until_markers ["DONE".toList] 100 [⟨false, [], none, 100, -15⟩]
      = some (⟨124, true, some false, some (-15)⟩, ChildState.stopped)
    ∧ run_one_until_markers_multi ["Linux version".toList] 100
        [⟨[some "Linux version 6.6".toList, none], none, 0, -15⟩]
      = some (⟨0, false, some true, some (-15)⟩, ChildState.stopped) := by
  refine ⟨?_, ?_, ?_, ?_⟩
  · exact (C2_marker_gated_supervision _ _ _ _ ⟨[], none, 0, 0⟩ []).1 (by decide)
  · exact (C2_marker_gated_supervision _ _ _ _ ⟨[], none, 0, 0⟩ []).2.1 7 (by decide) rfl
  · exact (C2_marker_gated_supervision _ _ _ _ ⟨[], none, 0, 0⟩ []).2.2.1 (by decide) rfl
      (by decide)
  · exact (C2_marker_gated_supervision _ _ ⟨false, [], none, 0, 0⟩ [] _ _).2.2.2.2.1
      (by decide)

/-- C10: each polling iteration checks marker satisfaction before polling
for child exit, so a child that already exited with any status (including a
nonzero one) while the marker log satisfies all required markers is
reported as returncode 0 with terminated_on_marker, its actual exit status
only in raw_returncode.  Likewise for the multi-log variant. -/
theorem C10_marker_gate_precedes_poll (markers : List (List Char)) (deadline : Nat)
    (o : PollObs) (rest : List PollObs) (om : MultiObs) (mrest : List MultiObs) (rc : Int) :
    (markersHit markers o = true → o.childExit = some rc →
        run_one_until_markers markers deadline (o :: rest)
          = some (⟨0, false, some true, some rc⟩, ChildState.stopped))
    ∧ (multiMarkersHit markers om = true → om.childExit = some rc →
        run_one_until_markers_multi markers deadline (om :: mrest)
          = some (⟨0, false, some true, some rc⟩, ChildState.stopped)) := by
  constructor
  · intro h1 h2
    simp [run_one_until_markers, h1, PollObs.postTermRc, h2]
  · intro h1 h2
    simp [run_one_until_markers_multi, h1, MultiObs.postTermRc, h2]

/-- Witness for C10: the child exited with failure status 3, yet the marker
gate reports success, with 3 surfaced only in raw_returncode. -/
theorem C10_witness :
    run_one_until_markers ["DONE".toList] 100 [⟨true, "DONE".toList, some 3, 0, -15⟩]
      = some (⟨0, false, some true, some 3⟩, ChildState.stopped) :=
  (C10_marker_gate_precedes_poll _ 100 _ [] ⟨[], none, 0, 0⟩ [] 3).1 (by decide) rfl

/-! ## Validation-verdict theorems -/

/-- C1 counterexample: Python `all` over the values of an empty check table
is `True`, so an empty table yields a passing verdict, not the failing
verdict the claim requires. -/
theorem C1_counterexample : all_passed [] = true := rfl

/-- C1 (amended): for every run that actually executes, the overall verdict
`validation.all_passed` equals the logical AND of all boolean entries of
the run's check table; an empty table would pass vacuously, but every
branch of `main` that executes a run builds a non-empty check table, so the
empty case never occurs. -/
theorem C1_verdict_is_and :
    (∀ checks : List (String × Bool),
        all_passed checks = (checks.map Prod.snd).foldr (· && ·) true)
    ∧ (∀ rc m ucr ms uart, rv64_checks rc m ucr ms uart ≠ [])
    ∧ (∀ n rc m, hybrid_checks n rc m ≠ [])
    ∧ (∀ n rc reqOk termOk kp pw, mixed_checks n rc reqOk termOk kp pw ≠ []) := by
  refine ⟨?_, ?_, ?_, ?_⟩
  · intro checks
    induction checks with
    | nil => rfl
    | cons kv t ih =>
      simp only [List.map_cons, List.foldr_cons, ← ih]
      simp [all_passed]
  · intro rc m ucr ms uart
    simp [rv64_checks]
  · intro n rc m
    simp [hybrid_checks]
  · intro n rc reqOk termOk kp pw
    simp [mixed_checks]

/-! ## Artifact-resolution theorems -/

/-- The one-point filesystem whose only existing path is `x/y/z/Image`. -/
def fsImageOnly : String → Bool := fun s => s == "x/y/z/Image"

/-- C3 counterexample: the kernel hint `x/y/z/Image` exists on
`fsImageOnly`, yet resolution does not return it unchanged — a hint whose
basename is `Image` is explicitly rejected, the fallback candidates do not
exist, and the result is the empty string. -/
theorem C3_counterexample :
    fsImageOnly "x/y/z/Image" = true
    ∧ auto_kernel_elf fsImageOnly [] "x/y/z/Image" = ""
    ∧ ("" : String) ≠ "x/y/z/Image" :=
  ⟨by decide, by decide, by decide⟩

/-- C3 (amended): resolution returns the hint unchanged only when it exists
and its basename is not `Image`; otherwise it scans the candidate list (the
fixed fallback path, the Image-derived sibling `vmlinux` when applicable,
then the glob results) strictly in order, skipping empty candidates, and
returns the first existing one, or the empty string when none exists.
Absence is communicated as a value; both functions are total, so no
exception is possible. -/
theorem C3_resolution_characterization (fs : String → Bool) (globVmlinux : List String)
    (hint : String) :
    (fs hint = true → pathName hint ≠ "Image" →
        auto_kernel_elf fs globVmlinux hint = hint)
    ∧ (∀ cs : List String, (∀ c ∈ cs, c = "" ∨ fs c = false) →
        find_first_existing fs cs = "")
    ∧ (∀ pre c post, (∀ d ∈ pre, d = "" ∨ fs d = false) → c ≠ "" → fs c = true →
        find_first_existing fs (pre ++ c :: post) = c)
    ∧ (¬(fs hint = true ∧ pathName hint ≠ "Image") →
        auto_kernel_elf fs globVmlinux hint
          = find_first_existing fs
              (["build/linux/vmlinux"]
                ++ (if pathName hint = "Image" ∧ (splitSlash hint).length ≥ 4
                    then [parents3Vmlinux hint] else [])
                ++ globVmlinux)) := by
  refine ⟨?_, ?_, ?_, ?_⟩
  · intro h1 h2
    simp [auto_kernel_elf, h1, h2]
  · intro cs h
    induction cs with
    | nil => rfl
    | cons c rest ih =>
      have hc := h c (List.mem_cons_self c rest)
      have hrest := fun d hd => h d (List.mem_cons_of_mem c hd)
      unfold find_first_existing
      rcases hc with hc | hc
      · rw [if_neg (by simp [hc])]
        exact ih hrest
      · rw [if_neg (by simp [hc])]
        exact ih hrest
  · intro pre c post hpre hc hfs
    induction pre with
    | nil =>
      simp [find_first_existing, hc, hfs]
    | cons d ds ih =>
      have hd := hpre d (List.mem_cons_self d ds)
      have hds := fun e he => hpre e (List.mem_cons_of_mem d he)
      rw [List.cons_append]
      unfold find_first_existing
      rcases hd with hd | hd
      · rw [if_neg (by simp [hd])]
        exact ih hds
      · rw [if_neg (by simp [hd])]
        exact ih hds
  · intro h
    simp only [auto_kernel_elf]
    rw [if_neg h]

/-- Witness for C3: an existing non-Image hint is returned unchanged, and
the scan returns the first existing candidate in order, skipping the empty
and the missing one. -/
theorem C3_witness :
    auto_kernel_elf (fun s => s == "boot/vmlinux.elf") [] "boot/vmlinux.elf"
      = "boot/vmlinux.elf"
    ∧ find_first_existing (fun s => s == "b" || s == "c") ["", "a", "b", "c"] = "b" := by
  constructor
  · exact (C3_resolution_characterization (fun s => s == "boot/vmlinux.elf") []
      "boot/vmlinux.elf").1 (by decide) (by decide)
  · exact (C3_resolution_characterization (fun s => s == "b" || s == "c") [] "").2.2.1
      ["", "a"] "b" ["c"] (by decide) (by decide) (by decide)

/-! ## Exit-code theorems -/

/-- All-true rv64 marker observations with no panic markers. -/
def rv64AllGood : Rv64Markers := ⟨true, true, true, true, true, true, true, false, false⟩

/-- All-true hybrid marker observations with no panic markers. -/
def hybridAllGood : HybridMarkers :=
  ⟨true, true, true, true, true, true, true, true, false, false, false⟩

/-- C4 counterexample: (i) a riscv64_smp run that timed out (`run_one`
reports timeout, returncode 124) makes the orchestrator exit 1, not 124 —
the timeout merely fails `returncode_ok` inside the validation verdict;
(ii) a riscv32_simple run propagates the simulator's exit code directly,
here 5, which is outside the claimed code set {0, 1, 2, 124}. -/
theorem C4_counterexample :
    (run_one none).timeout = true
    ∧ rv64_exit false [] (run_one none).returncode rv64AllGood true true true = 1
    ∧ rv32_simple_exit false [] (some 5) = 5
    ∧ (5 : Int) ≠ 0 ∧ (5 : Int) ≠ 1 ∧ (5 : Int) ≠ 2 ∧ (5 : Int) ≠ 124 :=
  ⟨rfl, by decide, by decide, by decide, by decide, by decide, by decide⟩

/-- C4 (amended): for non-dry-run invocations, a missing mandatory
prerequisite exits 2 in every branch; the validated targets (riscv64_smp,
riscv_hybrid, riscv32_mixed) exit 0 when all checks pass and 1 otherwise —
in particular 1, never 124, whenever the returncode is nonzero, which
covers timeouts — while the riscv32_simple branch propagates the
simulator's return code directly, hence 124 exactly on timeout and
arbitrary child codes otherwise. -/
theorem C4_exit_codes (missing : List String) (rc : Int) (m : Rv64Markers)
    (hm : HybridMarkers) (reqOk termOk kp pw ucr ms uart : Bool)
    (outcome : Option Int) :
    (missing ≠ [] →
        rv64_exit false missing rc m ucr ms uart = 2
        ∧ hybrid_exit false missing rc hm = 2
        ∧ mixed_exit false missing rc reqOk termOk kp pw = 2
        ∧ rv32_simple_exit false missing outcome = 2)
    ∧ (rv64_exit false [] rc m ucr ms uart
        = if all_passed (rv64_checks rc m ucr ms uart) then 0 else 1)
    ∧ (hybrid_exit false [] rc hm = if all_passed (hybrid_checks 1 rc hm) then 0 else 1)
    ∧ (mixed_exit false [] rc reqOk termOk kp pw
        = if all_passed (mixed_checks 1 rc reqOk termOk kp pw) then 0 else 1)
    ∧ (rc ≠ 0 →
        rv64_exit false [] rc m ucr ms uart = 1
        ∧ hybrid_exit false [] rc hm = 1
        ∧ mixed_exit false [] rc reqOk termOk kp pw = 1)
    ∧ (rv32_simple_exit false [] outcome = (run_one outcome).returncode)
    ∧ (rv32_simple_exit false [] none = 124) := by
  refine ⟨?_, ?_, ?_, ?_, ?_, ?_, ?_⟩
  · intro h
    exact ⟨by simp [rv64_exit, h], by simp [hybrid_exit, h],
           by simp [mixed_exit, h], by simp [rv32_simple_exit, h]⟩
  · simp [rv64_exit]
  · simp [hybrid_exit]
  · simp [mixed_exit]
  · intro h
    have hrc : (rc == 0) = false := by simpa using h
    exact ⟨by simp [rv64_exit, rv64_checks, all_passed, hrc],
           by simp [hybrid_exit, hybrid_checks, all_passed, hrc],
           by simp [mixed_exit, mixed_checks, all_passed, hrc]⟩
  · simp [rv32_simple_exit]
  · simp [rv32_simple_exit, run_one]

/-- Witness for C4: a missing prerequisite exits 2; a timed-out validated
run exits 1; a timed-out riscv32_simple run exits 124. -/
theorem C4_witness :
    rv64_exit false ["config: conf/riscv64_smp.py"] 0 rv64AllGood true true true = 2
    ∧ rv64_exit false [] 124 rv64AllGood true true true = 1
    ∧ rv32_simple_exit false [] none = 124 := by
  refine ⟨?_, ?_, ?_⟩
  · exact ((C4_exit_codes ["config: conf/riscv64_smp.py"] 0 rv64AllGood hybridAllGood
      true true false false true true true (some 0)).1 (by decide)).1
  · exact ((C4_exit_codes [] 124 rv64AllGood hybridAllGood
      true true false false true true true (some 0)).2.2.2.2.1 (by decide)).1
  · exact (C4_exit_codes [] 0 rv64AllGood hybridAllGood
      true true false false true true true none).2.2.2.2.2.2

/-! ## Statistics-counter theorems -/

/-- Result of the numeric conversion on the first matching line: value,
`-1` sentinel under `ValueError`, uncaught exception under
`OverflowError`. -/
def statConvert (outcome : PyIntFloat) : Except Unit Int :=
  match outcome with
  | PyIntFloat.val v => Except.ok v
  | PyIntFloat.valueError => Except.ok (-1)
  | PyIntFloat.overflowError => Except.error ()

/-- A line that does not match is skipped by the scan. -/
theorem statScan_skip (parse : List Char → PyIntFloat) (key d : List Char)
    (rest : List (List Char)) (hd : statLineMatches key d = false) :
    statScan parse key (d :: rest) = statScan parse key rest := by
  rcases hw : wsTokens d with _ | ⟨c0, _ | ⟨c1, r⟩⟩
  · simp only [statScan, hw]
  · simp only [statScan, hw]
  · have hd' : (c0 == key) = false := by
      unfold statLineMatches at hd
      rw [hw] at hd
      simpa using hd
    simp only [statScan, hw]
    simp [hd']

/-- A scan over lines none of which matches yields the sentinel. -/
theorem statScan_no_match (parse : List Char → PyIntFloat) (key : List Char) :
    ∀ lines, (∀ l ∈ lines, statLineMatches key l = false) →
      statScan parse key lines = Except.ok (-1) := by
  intro lines
  induction lines with
  | nil => intro _; rfl
  | cons line rest ih =>
    intro h
    rw [statScan_skip parse key line rest (h line (List.mem_cons_self line rest))]
    exact ih fun l hl => h l (List.mem_cons_of_mem line hl)

/-- The first matching line decides the scan, through the conversion's
three outcomes. -/
theorem statScan_first_match (parse : List Char → PyIntFloat) (key : List Char)
    (c0 c1 : List Char) (restCols : List (List Char)) (line : List Char)
    (hcols : wsTokens line = c0 :: c1 :: restCols) (hkey : c0 = key) :
    ∀ pre post, (∀ l ∈ pre, statLineMatches key l = false) →
      statScan parse key (pre ++ line :: post) = statConvert (parse c1) := by
  intro pre
  induction pre with
  | nil =>
    intro post _
    subst hkey
    simp only [List.nil_append, statScan, hcols, beq_self_eq_true, if_true]
    cases parse c1 <;> rfl
  | cons d ds ih =>
    intro post h
    rw [List.cons_append,
      statScan_skip parse key d (ds ++ line :: post) (h d (List.mem_cons_self d ds))]
    exact ih post fun l hl => h l (List.mem_cons_of_mem d hl)

/-- Oracle instance for the C8 counterexample: the literal `inf` parses to
an infinite float, so `int(float("inf"))` raises `OverflowError`; every
other string raises `ValueError`. -/
def infOracle (l : List Char) : PyIntFloat :=
  if l == "inf".toList then PyIntFloat.overflowError else PyIntFloat.valueError

/-- C8 counterexample: on the stats file `simInsts inf` with key
`simInsts`, the first matching line's value parses to an infinite float,
`int(float("inf"))` raises `OverflowError`, and the source's
`except ValueError` clause does not catch it — the function raises instead
of returning the integer value or the `-1` sentinel the claim promises for
every stats file. -/
theorem C8_counterexample :
    read_stats_counter infOracle (some "simInsts inf\n".toList) "simInsts".toList
      = Except.error () := by
  rfl

/-- C8 (amended): `read_stats_counter` returns the integer value of the
second whitespace column of the first line whose first column equals the
key exactly, when that value converts to a finite float; it returns the
`-1` sentinel when the file is missing, when no line has at least two
columns with the key in the first, or when the first matching line's value
raises `ValueError`; but when that value parses to an infinity,
`int(float(...))` raises `OverflowError`, which the `except ValueError`
clause does not catch, and the exception propagates instead of a return. -/
theorem C8_read_stats_counter (parse : List Char → PyIntFloat) (key : List Char) :
    read_stats_counter parse none key = Except.ok (-1)
    ∧ (∀ content, (∀ line ∈ pySplitlines content, statLineMatches key line = false) →
        read_stats_counter parse (some content) key = Except.ok (-1))
    ∧ (∀ content pre line post c0 c1 restCols,
        pySplitlines content = pre ++ line :: post →
        (∀ l ∈ pre, statLineMatches key l = false) →
        wsTokens line = c0 :: c1 :: restCols → c0 = key →
        ((∀ v : Int, parse c1 = PyIntFloat.val v →
            read_stats_counter parse (some content) key = Except.ok v)
          ∧ (parse c1 = PyIntFloat.valueError →
            read_stats_counter parse (some content) key = Except.ok (-1))
          ∧ (parse c1 = PyIntFloat.overflowError →
            read_stats_counter parse (some content) key = Except.error ()))) := by
  refine ⟨rfl, ?_, ?_⟩
  · intro content h
    simp only [read_stats_counter]
    exact statScan_no_match parse key _ h
  · intro content pre line post c0 c1 restCols hsplit hpre hcols hkey
    have hscan : read_stats_counter parse (some content) key = statConvert (parse c1) := by
      simp only [read_stats_counter]
      rw [hsplit]
      exact statScan_first_match parse key c0 c1 restCols line hcols hkey pre post hpre
    refine ⟨?_, ?_, ?_⟩
    · intro v hv
      rw [hscan, hv]
      rfl
    · intro hv
      rw [hscan, hv]
      rfl
    · intro hv
      rw [hscan, hv]
      rfl

/-- Concrete numeric oracle for the C8 witness: the literal `42` converts
to 42, `inf` overflows, anything else raises `ValueError`. -/
def witnessParse (l : List Char) : PyIntFloat :=
  if l == "42".toList then PyIntFloat.val 42
  else if l == "inf".toList then PyIntFloat.overflowError
  else PyIntFloat.valueError

/-- Witness for C8: the key is found on the second line, first match wins
and the value is returned; a file without the key yields the sentinel; an
infinite value on the matching line propagates the uncaught exception. -/
theorem C8_witness :
    read_stats_counter witnessParse
        (some "host_seconds 1.2\nsimInsts 42 # count\n".toList) "simInsts".toList
      = Except.ok 42
    ∧ read_stats_counter witnessParse (some "simOps 7\n".toList) "simInsts".toList
      = Except.ok (-1)
    ∧ read_stats_counter witnessParse (some "simInsts inf\n".toList) "simInsts".toList
      = Except.error () := by
  refine ⟨?_, ?_, ?_⟩
  · exact ((C8_read_stats_counter witnessParse "simInsts".toList).2.2
      "host_seconds 1.2\nsimInsts 42 # count\n".toList
      ["host_seconds 1.2".toList] "simInsts 42 # count".toList []
      "simInsts".toList "42".toList ["#".toList, "count".toList]
      (by decide) (by decide) (by decide) rfl).1 42 (by decide)
  · exact (C8_read_stats_counter witnessParse "simInsts".toList).2.1
      "simOps 7\n".toList (by decide)
  · exact ((C8_read_stats_counter witnessParse "simInsts".toList).2.2
      "simInsts inf\n".toList
      [] "simInsts inf".toList []
      "simInsts".toList "inf".toList []
      (by decide) (by simp) (by decide) rfl).2.2 (by decide)

end RunGem5
